import Mathlib

/-!
Shallow embedding of `src/plugin.py` (the VoltMind example plugin) and
verification of its specification.

The file models:
* the loosely-typed values a caller may pass in the keyword-argument bag
  (`Value`), together with Python's `int(...)` coercion (`pyInt`);
* `GreetCommand.execute` and `CountCommand.execute`, with the lines the
  commands print to the rich console captured as a list of strings (the
  strings are the exact arguments passed to `console.print`, rich markup
  included) and the Python return value as the second component;
* the `Plugin` object: its `_commands` dict attribute is modelled with a
  small heap of dictionaries so that `get_commands`'s `.copy()` (a fresh
  allocation) can be distinguished from returning the internal dict itself.
-/

/-- A Python exception kind relevant to `plugin.py`: `int(...)` raises
`ValueError` on a non-numeric string; any other exception would not be
caught by `CountCommand.execute`'s `except ValueError` clause. -/
inductive PyExc where
  | valueError
  | typeError
deriving DecidableEq, Repr

/-- A documented value for the `max` keyword argument of the count command:
an integer, a non-integer numeric (Python float, modelled as a rational),
or a string. -/
inductive Value where
  | int (n : Int)
  | num (q : ℚ)
  | str (s : String)
deriving DecidableEq, Repr

/-- Truncation toward zero of a rational, as Python's `int()` applied to a
float: `int(7.9) == 7`, `int(-7.9) == -7`.  Both branches divide a
non-negative numerator by the positive denominator, so the rounding mode of
integer division does not matter. -/
def pyTruncRat (q : ℚ) : Int :=
  if 0 ≤ q.num then q.num / (q.den : Int) else -((-q.num) / (q.den : Int))

/-- Python's `int()` applied to a decimal string: strip surrounding
whitespace, an optional sign, then a nonempty run of decimal digits
(digit-group underscores are not modelled; no claim involves them).
Returns `none` when the string is not a valid integer literal. -/
def pyStrToInt? (s : String) : Option Int :=
  let ws : Char → Bool := fun c => c = ' ' || c = '\t' || c = '\n' || c = '\r'
  let cs := ((s.toList.dropWhile ws).reverse.dropWhile ws).reverse
  let core : List Char → Option Int := fun ds =>
    if ds ≠ [] ∧ ds.all Char.isDigit then
      some (Int.ofNat (ds.foldl (fun a c => 10 * a + (c.toNat - '0'.toNat)) 0))
    else none
  match cs with
  | [] => none
  | c :: rest =>
    if c = '+' then core rest
    else if c = '-' then (core rest).map Int.neg
    else core (c :: rest)

/-- Python's `int(x)` on a documented `max` value.  On an `int` it is the
identity, on a float it truncates toward zero, on a string it parses a
decimal literal and raises `ValueError` when parsing fails. -/
def pyInt : Value → Except PyExc Int
  | .int n => .ok n
  | .num q => .ok (pyTruncRat q)
  | .str s =>
    match pyStrToInt? s with
    | some n => .ok n
    | none => .error .valueError

/-- The keyword-argument bag of `GreetCommand.execute`: the optional `name`
and `style` entries (`none` models an absent key, so `kwargs.get` supplies
the default). -/
structure GreetKwargs where
  name : Option String
  style : Option String

/-- `GreetCommand.execute` from `src/plugin.py`: picks the template for the
style (`formal`, `casual`, anything else falls to the friendly template),
prints two console lines and returns the greeting message. -/
def GreetCommand.execute (kw : GreetKwargs) : List String × String :=
  let nm := kw.name.getD "Friend"
  let style := kw.style.getD "friendly"
  let message :=
    if style = "formal" then s!"Good day, {nm}. I hope you are well."
    else if style = "casual" then s!"Hey {nm}! What\x27s up?"
    else s!"Hello there, {nm}! Nice to see you!"
  ([s!"🤖 [bold blue]{message}[/bold blue]",
    "[dim]This message is brought to you by the Example Plugin![/dim]"],
   message)

/-- The console lines of a successful count to `m`: the header, one line
per integer from 1 to `m` (printed as `f"  {i}"`), and the footer. -/
def countLines (m : Int) : List String :=
  s!"🔢 Counting to {m}:" ::
    ((List.range' 1 m.toNat).map (fun i => s!"  {i}") ++
      [s!"✅ Finished counting to {m}!"])

/-- The body of the `try:` block of `CountCommand.execute`: coerce with
`int()` (which may raise), reject values below one, clamp values above 100
with a warning, then count.  An exception from `int()` propagates to the
surrounding handler. -/
def countBody (v : Value) : Except PyExc (List String × Option Int) :=
  match pyInt v with
  | .error e => .error e
  | .ok n =>
    if n < 1 then .ok (["[red]Please provide a positive number[/red]"], none)
    else
      let warned :=
        if n > 100 then ["[yellow]That\x27s a big number! Limiting to 100[/yellow]"]
        else []
      let m := if n > 100 then (100 : Int) else n
      .ok (warned ++ countLines m, some m)

/-- `CountCommand.execute` from `src/plugin.py`: `kwargs.get('max', 5)`,
then the `try:` body with its `except ValueError:` handler; an exception
other than `ValueError` would propagate (`.error`). -/
def CountCommand.execute (kw : Option Value) : Except PyExc (List String × Option Int) :=
  let v := kw.getD (.int 5)
  match countBody v with
  | .ok r => .ok r
  | .error .valueError => .ok (["[red]Please provide a valid number[/red]"], none)
  | .error e => .error e

/-- A command object held in the plugin's registry: an instance of
`GreetCommand` or of `CountCommand`. -/
inductive CmdObj where
  | greetCmd
  | countCmd
deriving DecidableEq, Repr

/-- The Python dict mapping command names to command objects, as an
insertion-ordered association list. -/
abbrev Dict := List (String × CmdObj)

/-- The names (keys) of a registry dict. -/
def dictKeys (d : Dict) : List String := d.map Prod.fst

/-- A heap of dicts: cell `r` holds `cells[r]`.  Allocation appends a cell;
`get_commands`'s `.copy()` is an allocation, which is what separates the
returned mapping from the internal one. -/
structure Heap where
  cells : List Dict
deriving DecidableEq, Repr

/-- Allocate a fresh cell holding `d`; returns the new reference. -/
def Heap.alloc (h : Heap) (d : Dict) : Nat × Heap :=
  (h.cells.length, ⟨h.cells ++ [d]⟩)

/-- The dict stored at reference `r` (empty for a dangling reference). -/
def Heap.read (h : Heap) (r : Nat) : Dict :=
  h.cells.getD r []

/-- Overwrite the dict stored at reference `r`; models the caller mutating
a dict it holds a reference to (adding, removing or replacing entries all
leave some dict value there). -/
def Heap.write (h : Heap) (r : Nat) (d : Dict) : Heap :=
  ⟨h.cells.set r d⟩

/-- The state of one `Plugin` object together with the heap of dicts:
`commandsRef` is the dict its `_commands` attribute currently points to. -/
structure PState where
  heap : Heap
  commandsRef : Nat
deriving DecidableEq, Repr

/-- `Plugin.__init__`: `self._commands = {}` allocates an empty dict. -/
def Plugin.mkNew (h : Heap) : PState :=
  let p := h.alloc []
  ⟨p.2, p.1⟩

/-- The metadata record returned by `Plugin.get_info`. -/
structure PluginInfo where
  name : String
  version : String
  description : String
  author : String
  commands : List String
  entry_point : String
deriving DecidableEq, Repr

/-- The constant `PluginInfo` built by `Plugin.get_info`. -/
def examplePluginInfo : PluginInfo :=
  { name := "example-plugin"
    version := "1.0.0"
    description := "An example plugin demonstrating VoltMind\x27s plugin system"
    author := "VoltMind Team"
    commands := ["greet", "count"]
    entry_point := "plugin.Plugin" }

/-- `Plugin.get_info`: returns the constant metadata, state untouched. -/
def Plugin.getInfo (s : PState) : PluginInfo × PState :=
  (examplePluginInfo, s)

/-- The dict `Plugin.initialize` assigns: one instance per known command. -/
def initialDict : Dict :=
  [("greet", CmdObj.greetCmd), ("count", CmdObj.countCmd)]

/-- `Plugin.initialize`: `self._commands = {"greet": ..., "count": ...}`
allocates the populated dict and rebinds the attribute to it. -/
def Plugin.initPlugin (s : PState) : PState :=
  let p := s.heap.alloc initialDict
  ⟨p.2, p.1⟩

/-- `Plugin.get_commands`: `return self._commands.copy()` — allocates a
fresh dict with the registry's current contents and hands the caller that
reference; the plugin keeps pointing at the internal dict. -/
def Plugin.getCommands (s : PState) : Nat × PState :=
  let p := s.heap.alloc (s.heap.read s.commandsRef)
  (p.1, ⟨p.2, s.commandsRef⟩)

/-- The contents of the plugin's internal registry. -/
def registryDict (s : PState) : Dict :=
  s.heap.read s.commandsRef

/-- A caller scenario: call `get_commands`, then mutate the returned
mapping in place, overwriting its contents with an arbitrary dict `d`. -/
def mutateReturned (s : PState) (d : Dict) : PState :=
  let p := Plugin.getCommands s
  ⟨p.2.heap.write p.1 d, p.2.commandsRef⟩

/-- A well-formed plugin state: the registry reference is allocated. -/
def PState.wf (s : PState) : Prop :=
  s.commandsRef < s.heap.cells.length

instance (s : PState) : Decidable s.wf := by
  unfold PState.wf; infer_instance

/-- The methods a host may call on a plugin after construction. -/
inductive PluginOp where
  | opInit
  | opGetInfo
  | opGetCommands
deriving DecidableEq, Repr

/-- One method call, as a transition on the plugin state. -/
def stepOp (s : PState) : PluginOp → PState
  | .opInit => Plugin.initPlugin s
  | .opGetInfo => (Plugin.getInfo s).2
  | .opGetCommands => (Plugin.getCommands s).2

/-- A sequence of method calls after construction. -/
def runOps (s : PState) (ops : List PluginOp) : PState :=
  ops.foldl stepOp s

/-! ### Helper lemmas about the heap -/

/-- Reading the reference a fresh allocation returned yields the dict
that was allocated. -/
theorem heapReadAllocTop (h : Heap) (d : Dict) :
    ((h.alloc d).2).read (h.alloc d).1 = d := by
  unfold Heap.alloc Heap.read
  rw [List.getD_eq_getElem?_getD, List.getElem?_concat_length]
  rfl

/-- An allocation leaves every previously allocated cell unchanged. -/
theorem heapReadAllocLt (h : Heap) (d : Dict) (r : Nat) (hr : r < h.cells.length) :
    ((h.alloc d).2).read r = h.read r := by
  unfold Heap.alloc Heap.read
  rw [List.getD_eq_getElem?_getD, List.getD_eq_getElem?_getD, List.getElem?_append]
  simp [hr]

/-- Allocating a copy of cell `r` does not change what `r` reads as,
whatever `r` is. -/
theorem heapReadAllocRead (h : Heap) (r : Nat) :
    ((h.alloc (h.read r)).2).read r = h.read r := by
  rcases lt_trichotomy r h.cells.length with hlt | heq | hgt
  · exact heapReadAllocLt h (h.read r) r hlt
  · unfold Heap.alloc Heap.read
    subst heq
    rw [List.getD_eq_getElem?_getD, List.getElem?_concat_length]
    rfl
  · unfold Heap.alloc Heap.read
    rw [List.getD_eq_getElem?_getD, List.getD_eq_getElem?_getD,
      List.getElem?_eq_none (by simp; omega), List.getElem?_eq_none (by omega)]

/-- Writing one cell leaves every other cell unchanged. -/
theorem heapReadWriteNe (h : Heap) (r r' : Nat) (d : Dict) (hne : r ≠ r') :
    (h.write r d).read r' = h.read r' := by
  unfold Heap.write Heap.read
  rw [List.getD_eq_getElem?_getD, List.getD_eq_getElem?_getD, List.getElem?_set_ne hne]

/-! ### Helper lemmas about the plugin methods -/

/-- The mapping `get_commands` hands to the caller has exactly the
registry's contents. -/
theorem getCommands_returns_registry (s : PState) :
    (Plugin.getCommands s).2.heap.read (Plugin.getCommands s).1 = registryDict s :=
  heapReadAllocTop s.heap (s.heap.read s.commandsRef)

/-- `get_commands` leaves the internal registry's contents unchanged. -/
theorem registry_getCommands (s : PState) :
    registryDict (Plugin.getCommands s).2 = registryDict s :=
  heapReadAllocRead s.heap s.commandsRef

/-- A fresh plugin's registry is empty. -/
theorem registry_mkNew (h : Heap) : registryDict (Plugin.mkNew h) = [] :=
  heapReadAllocTop h []

/-- After `initialize`, the registry holds the populated dict. -/
theorem registry_initPlugin (s : PState) :
    registryDict (Plugin.initPlugin s) = initialDict :=
  heapReadAllocTop s.heap initialDict

/-- The registry after a call sequence: the populated dict as soon as the
sequence contains an `initialize` call, otherwise whatever it held before. -/
theorem registry_runOps (ops : List PluginOp) : ∀ s : PState,
    registryDict (runOps s ops) =
      if PluginOp.opInit ∈ ops then initialDict else registryDict s := by
  induction ops with
  | nil => intro s; simp [runOps]
  | cons op rest ih =>
    intro s
    have hstep : runOps s (op :: rest) = runOps (stepOp s op) rest := rfl
    rw [hstep, ih]
    cases op with
    | opInit => simp [stepOp, registry_initPlugin, List.mem_cons]
    | opGetInfo => simp [stepOp, Plugin.getInfo, List.mem_cons]
    | opGetCommands => simp [stepOp, registry_getCommands, List.mem_cons]

/-! ### Helper lemmas about `int()` -/

/-- The only exception `int()` raises on a documented `max` value is
`ValueError` (from a non-numeric string). -/
theorem pyInt_error_eq (v : Value) (e : PyExc) (h : pyInt v = .error e) :
    e = PyExc.valueError := by
  cases v with
  | int n => simp [pyInt] at h
  | num q => simp [pyInt] at h
  | str s =>
    rcases hp : pyStrToInt? s with _ | n <;> simp [pyInt, hp] at h
    exact h.symm

/-- On a non-negative rational, truncation toward zero is the floor. -/
theorem pyTruncRat_nonneg (q : ℚ) (hq : 0 ≤ q) : pyTruncRat q = ⌊q⌋ := by
  unfold pyTruncRat
  rw [if_pos (Rat.num_nonneg.mpr hq)]
  exact Rat.floor_def.symm

/-! ### Claim theorems -/

/-- C1: for every integer `max` with `1 ≤ max ≤ 100`, `CountCommand.execute`
returns `max` and emits, in order, the header line, one line per integer
from 1 to `max` inclusive, and the completion footer. -/
theorem count_in_range_counts_up (m : Int) (h1 : 1 ≤ m) (h2 : m ≤ 100) :
    CountCommand.execute (some (Value.int m)) =
      Except.ok (s!"🔢 Counting to {m}:" ::
        ((List.range' 1 m.toNat).map (fun i => s!"  {i}") ++
          [s!"✅ Finished counting to {m}!"]), some m) := by
  have hne : ¬ m < 1 := by omega
  have hng : ¬ m > 100 := by omega
  simp [CountCommand.execute, countBody, pyInt, hne, hng, countLines]

/-- C1 witness: `count(max=5)` returns 5 and emits exactly the header, the
lines for 1..5, and the footer. -/
theorem count_in_range_counts_up_witness :
    CountCommand.execute (some (Value.int 5)) =
      Except.ok (["🔢 Counting to 5:", "  1", "  2", "  3", "  4", "  5",
        "✅ Finished counting to 5!"], some 5) := by
  rw [count_in_range_counts_up 5 (by decide) (by decide)]
  rfl

/-- C2: on a value whose `int()` coercion fails, and on a value that
coerces below one, `CountCommand.execute` returns no result (`none`) and
prints the corresponding error message, raising nothing. -/
theorem count_rejects_invalid (v : Value) :
    ((∃ e, pyInt v = .error e) →
      CountCommand.execute (some v) =
        Except.ok (["[red]Please provide a valid number[/red]"], none))
  ∧ (∀ n : Int, pyInt v = .ok n → n < 1 →
      CountCommand.execute (some v) =
        Except.ok (["[red]Please provide a positive number[/red]"], none)) := by
  constructor
  · rintro ⟨e, he⟩
    have hev := pyInt_error_eq v e he
    subst hev
    simp [CountCommand.execute, countBody, he]
  · intro n hn hlt
    simp [CountCommand.execute, countBody, hn, hlt]

/-- C2 witness: `count(max=0)`, `count(max=-3)` and `count(max="abc")`
each return no value and emit the corresponding error notice. -/
theorem count_rejects_invalid_witness :
    CountCommand.execute (some (Value.int 0)) =
      Except.ok (["[red]Please provide a positive number[/red]"], none)
  ∧ CountCommand.execute (some (Value.int (-3))) =
      Except.ok (["[red]Please provide a positive number[/red]"], none)
  ∧ CountCommand.execute (some (Value.str "abc")) =
      Except.ok (["[red]Please provide a valid number[/red]"], none) :=
  ⟨(count_rejects_invalid (Value.int 0)).2 0 rfl (by decide),
   (count_rejects_invalid (Value.int (-3))).2 (-3) rfl (by decide),
   (count_rejects_invalid (Value.str "abc")).1 ⟨PyExc.valueError, rfl⟩⟩

/-- C3: on a value that coerces to an integer above 100,
`CountCommand.execute` emits the warning, counts only up to 100, and
returns 100. -/
theorem count_clamps_large (v : Value) (n : Int) (h1 : pyInt v = .ok n)
    (h2 : 100 < n) :
    CountCommand.execute (some v) =
      Except.ok ("[yellow]That\x27s a big number! Limiting to 100[/yellow]" ::
        countLines 100, some 100) := by
  have hne : ¬ n < 1 := by omega
  simp [CountCommand.execute, countBody, h1, hne, h2]

/-- C3 witness: `count(max=150)` warns, clamps to 100, and returns 100. -/
theorem count_clamps_large_witness :
    CountCommand.execute (some (Value.int 150)) =
      Except.ok ("[yellow]That\x27s a big number! Limiting to 100[/yellow]" ::
        countLines 100, some 100) :=
  count_clamps_large (Value.int 150) 150 rfl (by decide)

/-- C4: the greet command returns exactly the template for the requested
style instantiated with the name — formal, casual, or (for "friendly" and
any unrecognized style) the friendly template — with the name defaulting
to "Friend" and the style defaulting to "friendly" when absent. -/
theorem greet_returns_template (nm style : String) :
    ((GreetCommand.execute ⟨some nm, some style⟩).2 =
      if style = "formal" then s!"Good day, {nm}. I hope you are well."
      else if style = "casual" then s!"Hey {nm}! What\x27s up?"
      else s!"Hello there, {nm}! Nice to see you!")
  ∧ (GreetCommand.execute ⟨none, some style⟩).2 =
      (GreetCommand.execute ⟨some "Friend", some style⟩).2
  ∧ (GreetCommand.execute ⟨some nm, none⟩).2 =
      (GreetCommand.execute ⟨some nm, some "friendly"⟩).2 := by
  refine ⟨?_, rfl, rfl⟩
  simp only [GreetCommand.execute, Option.getD_some]

/-- C5: no exception propagates under documented inputs: the greet command
always returns one of the three greeting templates, and the count command
always returns normally (`Except.ok`), with either a bound or no value. -/
theorem no_exception_escapes (gkw : GreetKwargs) (kw : Option Value) :
    (∃ nm : String,
        (GreetCommand.execute gkw).2 = s!"Good day, {nm}. I hope you are well."
      ∨ (GreetCommand.execute gkw).2 = s!"Hey {nm}! What\x27s up?"
      ∨ (GreetCommand.execute gkw).2 = s!"Hello there, {nm}! Nice to see you!")
  ∧ (∃ out : List String, ∃ res : Option Int,
      CountCommand.execute kw = Except.ok (out, res)) := by
  constructor
  · refine ⟨gkw.name.getD "Friend", ?_⟩
    by_cases h1 : gkw.style.getD "friendly" = "formal"
    · exact Or.inl (by simp [GreetCommand.execute, h1])
    · by_cases h2 : gkw.style.getD "friendly" = "casual"
      · exact Or.inr (Or.inl (by simp [GreetCommand.execute, h1, h2]))
      · exact Or.inr (Or.inr (by simp [GreetCommand.execute, h1, h2]))
  · cases hv : pyInt (kw.getD (Value.int 5)) with
    | ok n =>
      by_cases hn : n < 1
      · exact ⟨["[red]Please provide a positive number[/red]"], none,
          by simp [CountCommand.execute, countBody, hv, hn]⟩
      · refine ⟨(if 100 < n then
            ["[yellow]That\x27s a big number! Limiting to 100[/yellow]"] else []) ++
            countLines (if 100 < n then 100 else n),
          some (if 100 < n then 100 else n), ?_⟩
        simp [CountCommand.execute, countBody, hv, hn]
    | error e =>
      have he := pyInt_error_eq _ _ hv
      subst he
      exact ⟨["[red]Please provide a valid number[/red]"], none,
        by simp [CountCommand.execute, countBody, hv]⟩

/-- C6: on a freshly constructed plugin, `get_commands` returns an empty
mapping; after `initialize`, it returns a mapping with exactly the keys
"greet" and "count", each bound to the corresponding command instance. -/
theorem commands_empty_then_registered (h : Heap) :
    (Plugin.getCommands (Plugin.mkNew h)).2.heap.read
        (Plugin.getCommands (Plugin.mkNew h)).1 = []
  ∧ (Plugin.getCommands (Plugin.initPlugin (Plugin.mkNew h))).2.heap.read
        (Plugin.getCommands (Plugin.initPlugin (Plugin.mkNew h))).1 =
      [("greet", CmdObj.greetCmd), ("count", CmdObj.countCmd)] := by
  constructor
  · rw [getCommands_returns_registry, registry_mkNew]
  · rw [getCommands_returns_registry, registry_initPlugin]
    rfl

/-- C7: `get_commands` hands out a defensive copy: overwriting the mapping
it returned with an arbitrary dict leaves the internal registry unchanged,
and a subsequent `get_commands` still returns the original contents. -/
theorem getCommands_defensive_copy (s : PState) (hwf : s.wf) (d : Dict) :
    registryDict (mutateReturned s d) = registryDict s
  ∧ (Plugin.getCommands (mutateReturned s d)).2.heap.read
        (Plugin.getCommands (mutateReturned s d)).1 = registryDict s := by
  have hne : (s.heap.alloc (s.heap.read s.commandsRef)).1 ≠ s.commandsRef :=
    (Nat.ne_of_lt hwf).symm
  have h1 : registryDict (mutateReturned s d) = registryDict s := by
    show ((s.heap.alloc (s.heap.read s.commandsRef)).2.write
        (s.heap.alloc (s.heap.read s.commandsRef)).1 d).read s.commandsRef =
      s.heap.read s.commandsRef
    rw [heapReadWriteNe _ _ _ _ hne]
    exact heapReadAllocRead s.heap s.commandsRef
  exact ⟨h1, by rw [getCommands_returns_registry]; exact h1⟩

/-- C7 witness: on a concrete fresh plugin, overwriting the returned
mapping with a populated dict leaves the registry as it was. -/
theorem getCommands_defensive_copy_witness :
    registryDict (mutateReturned (Plugin.mkNew ⟨[]⟩) initialDict) =
      registryDict (Plugin.mkNew ⟨[]⟩)
  ∧ (Plugin.getCommands (mutateReturned (Plugin.mkNew ⟨[]⟩) initialDict)).2.heap.read
        (Plugin.getCommands (mutateReturned (Plugin.mkNew ⟨[]⟩) initialDict)).1 =
      registryDict (Plugin.mkNew ⟨[]⟩) :=
  getCommands_defensive_copy (Plugin.mkNew ⟨[]⟩) (by decide) initialDict

/-- C8: `get_info` is independent of initialization state: on every plugin
state it returns the same metadata record — name "example-plugin", version
"1.0.0", author "VoltMind Team", commands ["greet", "count"], entry point
"plugin.Plugin" — and leaves the state unchanged. -/
theorem getInfo_static_metadata (s : PState) :
    (Plugin.getInfo s).1.name = "example-plugin"
  ∧ (Plugin.getInfo s).1.version = "1.0.0"
  ∧ (Plugin.getInfo s).1.author = "VoltMind Team"
  ∧ (Plugin.getInfo s).1.commands = ["greet", "count"]
  ∧ (Plugin.getInfo s).1.entry_point = "plugin.Plugin"
  ∧ (Plugin.getInfo s).1 = (Plugin.getInfo (Plugin.initPlugin s)).1
  ∧ (Plugin.getInfo s).2 = s :=
  ⟨rfl, rfl, rfl, rfl, rfl, rfl, rfl⟩

/-- C9 counterexample: in the reachable state right after construction
(the empty call sequence), the descriptor's command list contains "greet"
while the registry is still empty, so the two name sets differ. -/
theorem registry_descriptor_mismatch_uninitialized :
    "greet" ∈ (Plugin.getInfo (runOps (Plugin.mkNew ⟨[]⟩) [])).1.commands
  ∧ "greet" ∉ dictKeys (registryDict (runOps (Plugin.mkNew ⟨[]⟩) [])) := by
  decide

/-- C9 amended: in every reachable state whose call sequence contains at
least one `initialize` call, the registered command names are exactly the
names the descriptor declares. -/
theorem registry_matches_descriptor_after_init (ops : List PluginOp)
    (h : PluginOp.opInit ∈ ops) :
    dictKeys (registryDict (runOps (Plugin.mkNew ⟨[]⟩) ops)) =
      (Plugin.getInfo (runOps (Plugin.mkNew ⟨[]⟩) ops)).1.commands := by
  rw [registry_runOps ops (Plugin.mkNew ⟨[]⟩), if_pos h]
  rfl

/-- C9 amended witness: after the sequence consisting of one `initialize`
call, the registered names match the descriptor's list. -/
theorem registry_matches_descriptor_after_init_witness :
    dictKeys (registryDict (runOps (Plugin.mkNew ⟨[]⟩) [PluginOp.opInit])) =
      (Plugin.getInfo (runOps (Plugin.mkNew ⟨[]⟩) [PluginOp.opInit])).1.commands :=
  registry_matches_descriptor_after_init [PluginOp.opInit] (by decide)

/-- C10: a non-integer numeric `max` of at least one is accepted, not
rejected: the bound used and returned is its truncation toward zero
(the floor, for a non-negative value), clamped at 100. -/
theorem count_truncates_floats (q : ℚ) (hq : 1 ≤ q) :
    CountCommand.execute (some (Value.num q)) =
      Except.ok ((if 100 < ⌊q⌋ then
          ["[yellow]That\x27s a big number! Limiting to 100[/yellow]"] else []) ++
        countLines (min ⌊q⌋ 100), some (min ⌊q⌋ 100)) := by
  have htr : pyTruncRat q = ⌊q⌋ := pyTruncRat_nonneg q (by linarith)
  have hf : (1 : ℤ) ≤ ⌊q⌋ := by
    rw [Int.le_floor]; exact_mod_cast hq
  have hne : ¬ ⌊q⌋ < 1 := by omega
  by_cases hg : 100 < ⌊q⌋
  · have hmin : min ⌊q⌋ 100 = 100 := min_eq_right (by omega)
    simp [CountCommand.execute, countBody, pyInt, htr, hne, hg, hmin]
  · have hmin : min ⌊q⌋ 100 = ⌊q⌋ := min_eq_left (by omega)
    simp [CountCommand.execute, countBody, pyInt, htr, hne, hg, hmin]

/-- C10 witness: `count(max=7.9)` counts to 7 and returns 7. -/
theorem count_truncates_floats_witness :
    CountCommand.execute (some (Value.num (79 / 10))) =
      Except.ok (countLines 7, some 7) := by
  have h := count_truncates_floats (79 / 10) (by norm_num)
  have hf : ⌊(79 / 10 : ℚ)⌋ = 7 := by norm_num [Int.floor_eq_iff]
  rw [hf] at h
  simpa using h
